import Mathlib

/-
Verification development for the Facebook Selenium bot repository
(facebook_bot_selenium.py, facebook_cli.py, run_facebook_bot.py).

The Python code drives a live browser, so the embedding is a pure model in
which every browser-dependent outcome is supplied by an explicit environment:
for each locator candidate (an XPath string) the environment says whether the
query finds a usable element (`found`), finds nothing so that the bounded
wait times out (`notFound`), or raises some other low-level exception
(`thrown`).  The driver actions performed by the code are recorded in an
event trace (navigations, tab openings, bounded waits, clicks, text entry,
activity-log records).  Selector lists are transcribed verbatim from the
source (apostrophes written as the escape \x27).  Every `try/except:
continue` of the source is translated by total case analysis on the
environment outcome, which is exactly the behaviour of a catch-all handler.
-/

namespace FBBot

/-- Python's substring operator `needle in hay`, prefix test on char lists. -/
def isPrefixCharList : List Char → List Char → Bool
  | [], _ => true
  | _ :: _, [] => false
  | a :: as, b :: bs => a == b && isPrefixCharList as bs

/-- Python's substring operator `needle in hay`, scanning every position. -/
def containsAux (needle : List Char) : List Char → Bool
  | [] => isPrefixCharList needle []
  | h :: t => isPrefixCharList needle (h :: t) || containsAux needle t

/-- Python's `needle in hay` on strings. -/
def strContains (hay needle : String) : Bool :=
  containsAux needle.data hay.data

/-- ASCII lowering of one character, modelling `str.lower()` for the ASCII
range (the needles compared against, "me gusta" and "like", are ASCII). -/
def lowerChar (c : Char) : Char :=
  if 65 ≤ c.toNat && c.toNat ≤ 90 then Char.ofNat (c.toNat + 32) else c

/-- ASCII lowering of a string, modelling `str.lower()`. -/
def lowerStr (s : String) : String :=
  String.mk (s.data.map lowerChar)

/-- Outcome of attempting one locator candidate against the live document:
the query yields a usable element and the subsequent driver action on it
succeeds (`found`); the query matches nothing, so a bounded `wait.until`
times out / `find_element` raises NoSuchElementException (`notFound`); or
some other low-level exception is raised (`thrown`). -/
inductive CandOutcome
  | found
  | notFound
  | thrown
deriving DecidableEq

/-- Driver-visible actions performed by the bot, recorded in order.
`loginStep` events are the authentication flow's own steps (navigating to
the login page, filling credentials); all other constructors are page
interactions or activity-log records. -/
inductive Event
  | loginStep (step : String)
  | navigate (url : String)
  | openTab (url : String)
  | waitBounded (selector : String)
  | click (selector : String)
  | typeText (text : String)
  | activityLog (action : String) (status : String)
deriving DecidableEq

/-- True for page interactions and activity-log records, false for the
authentication flow's own steps. -/
def Event.isInteraction : Event → Bool
  | .loginStep _ => false
  | _ => true

/-- True for a `driver.get` navigation event. -/
def Event.isNav : Event → Bool
  | .navigate _ => true
  | _ => false

/-- True for a bounded `wait.until` event. -/
def Event.isWait : Event → Bool
  | .waitBounded _ => true
  | _ => false

/-- True for a `save_activity_log` record. -/
def Event.isActivity : Event → Bool
  | .activityLog _ _ => true
  | _ => false

/-- The page interactions and activity-log records in a trace. -/
def interactions (ev : List Event) : List Event :=
  ev.filter Event.isInteraction

/-- Number of `driver.get` navigations in a trace. -/
def countNav (ev : List Event) : Nat :=
  ev.countP Event.isNav

/-- Number of bounded `wait.until` waits in a trace. -/
def countWaits (ev : List Event) : Nat :=
  ev.countP Event.isWait

/-- The mutable state of a `FacebookBotSelenium` instance together with the
browser it owns: `connected` (the session flag), whether `self.driver` has
been set up, the browser's current URL, and the loaded comment templates. -/
structure BotState where
  connected : Bool
  driverStarted : Bool
  currentUrl : String
  commentTemplates : List String
deriving DecidableEq

/-- Environment for one run of `login()`: whether `_setup_browser` succeeds,
whether credential entry completes without raising, whether the resulting
page shows the `login_error_box` region, whether it shows the
`approvals_code` (two-factor) field, and the URL the browser ends up at. -/
structure LoginEnv where
  setupOk : Bool
  credEntryOk : Bool
  errorBoxPresent : Bool
  approvalsCodePresent : Bool
  urlAfterLogin : String
deriving DecidableEq

/-- Result of `login()`: the source returns a bare bool, but each `return
False` sits in a distinct branch with its own log message, which this
enumeration records (browser setup failed; credential entry raised; the
`login_error_box` was found; the `approvals_code` two-factor field was
found; the final URL did not look authenticated). -/
inductive LoginOutcome
  | ok
  | failedSetup
  | failedCredEntry
  | failedBadCredentials
  | failedVerificationRequired
  | failedUnverified
deriving DecidableEq

/-- `FacebookBotSelenium.login` (facebook_bot_selenium.py lines 156-239):
set up the browser if needed, navigate to the login page, best-effort
dismiss the cookie dialog, enter credentials and submit, then classify the
result: `login_error_box` present first, then `approvals_code` present,
then the authenticated-URL check; `self.connected` is set only on success. -/
def login (st : BotState) (env : LoginEnv) : LoginOutcome × List Event × BotState :=
  if !st.driverStarted && !env.setupOk then
    (.failedSetup, [Event.loginStep "setup-browser-failed"], st)
  else
    let st0 := { st with driverStarted := true }
    let ev0 := [Event.loginStep "setup-browser", Event.loginStep "navigate-login-page",
                Event.loginStep "cookie-dialog"]
    if !env.credEntryOk then
      (.failedCredEntry, ev0 ++ [Event.loginStep "credential-entry-error"], st0)
    else
      let ev1 := ev0 ++ [Event.loginStep "enter-email", Event.loginStep "enter-password",
                         Event.loginStep "click-login"]
      let st1 := { st0 with currentUrl := env.urlAfterLogin }
      if env.errorBoxPresent then
        (.failedBadCredentials, ev1, st1)
      else if env.approvalsCodePresent then
        (.failedVerificationRequired, ev1, st1)
      else if strContains env.urlAfterLogin "facebook.com/home"
           || strContains env.urlAfterLogin "facebook.com/?sk=h_chr"
           || strContains env.urlAfterLogin "facebook.com/" then
        (.ok, ev1, { st1 with connected := true })
      else
        (.failedUnverified, ev1, st1)

/-- The guard shared by every interaction method (`if not self.connected:
if not self.login(): return False`): already connected runs the body;
otherwise the login flow runs first and a definitive login failure returns
False without running the body. -/
def guardLogin (st : BotState) (lenv : LoginEnv)
    (body : BotState → Bool × List Event × BotState) : Bool × List Event × BotState :=
  if st.connected then body st
  else
    let r := login st lenv
    if r.1 = LoginOutcome.ok then
      let b := body r.2.2
      (b.1, r.2.1 ++ b.2.1, b.2.2)
    else
      (false, r.2.1, r.2.2)

/-- The priority-ordered candidate loop pattern of the source (`for sel in
sels: try: <resolve sel, act, return success> except: continue`): candidates
are tried strictly in list order, the first `found` candidate is acted on
(emitting `onHit`), a `notFound` or `thrown` candidate is skipped by the
catch-all handler.  When `useWait` is true each attempt performs a bounded
`wait.until`, recorded as a `waitBounded` event. -/
def candLoop (out : String → CandOutcome) (useWait : Bool)
    (onHit : String → List Event) : List String → Option String × List Event
  | [] => (none, [])
  | x :: rest =>
    match out x with
    | CandOutcome.found =>
      (some x, (if useWait then [Event.waitBounded x] else []) ++ onHit x)
    | _ =>
      let r := candLoop out useWait onHit rest
      (r.1, (if useWait then [Event.waitBounded x] else []) ++ r.2)

/-- The best-effort loop of the in-current-view variants whose inner `break`
leaves the outer `for` running (lines 1014-1026, 1068-1079, 1103-1115):
every candidate whose query yields a usable element is clicked, and the loop
never stops early. -/
def clickAllLoop (out : String → CandOutcome) : List String → List Event
  | [] => []
  | x :: rest =>
    (if out x = CandOutcome.found then [Event.click x] else []) ++ clickAllLoop out rest

/-- An element returned by `find_elements`, with the two properties the code
inspects: whether `is_element_visible` accepts it and whether interacting
with it raises. -/
structure Elem where
  visible : Bool
  raises : Bool
deriving DecidableEq

/-- Outcome of one in-current-view candidate: `find_elements` is queried, the
first visible element (if any) is interacted with; no visible element means
the candidate yields nothing, and an exception while interacting aborts the
candidate (the catch-all `except: continue` moves to the next selector). -/
def scanOutcome (l : List Elem) : CandOutcome :=
  match l.find? (fun e => e.visible) with
  | none => CandOutcome.notFound
  | some e => if e.raises then CandOutcome.thrown else CandOutcome.found

/-- A button from the broad role-based fallback scan: whether
`get_attribute("aria-label")` raises, the attribute's value, whether
clicking raises, and whether `is_element_visible` accepts it (only the
in-current-view variant checks visibility). -/
structure AltButton where
  visible : Bool
  attrRaises : Bool
  ariaLabel : Option String
  clickRaises : Bool
deriving DecidableEq

/-- The aria-label test of the fallback like scan:
`aria_label and ("me gusta" in aria_label.lower() or "like" in aria_label.lower())`. -/
def ariaLikeMatch : Option String → Bool
  | none => false
  | some s =>
    !s.isEmpty && (strContains (lowerStr s) "me gusta" || strContains (lowerStr s) "like")

/-- A fallback button the standalone `like_post` scan clicks successfully
(lines 323-336): attribute read succeeds, the label matches, the click
succeeds. -/
def altMatch (b : AltButton) : Bool :=
  !b.attrRaises && ariaLikeMatch b.ariaLabel && !b.clickRaises

/-- A fallback button the in-current-view scan clicks successfully (lines
934-951): additionally the element must be visible. -/
def altMatchV (b : AltButton) : Bool :=
  b.visible && altMatch b

/-- Renaming of candidate outcomes in which a raising query is
indistinguishable from a non-matching one; the resolution loops treat the
two identically (the fault-isolation property of claim C3). -/
def demoteThrown (out : String → CandOutcome) : String → CandOutcome :=
  fun x =>
    match out x with
    | CandOutcome.thrown => CandOutcome.notFound
    | o => o

/-- Like-control selectors for the mobile layout (lines 265-272, duplicated
at 874-881). -/
def likePathsMobile : List String :=
  ["//a[contains(@aria-label, \x27Me gusta\x27) or contains(@aria-label, \x27Like\x27)]",
   "//a[starts-with(@data-sigil, \x27ufi-inline-like\x27)]",
   "//a[contains(@href, \x27reaction_type=1\x27)]",
   "//a[contains(@class, \x27like-reaction\x27)]",
   "//span[text()=\x27Me gusta\x27]/parent::a",
   "//div[@role=\x27button\x27]/span[text()=\x27Me gusta\x27 or text()=\x27Like\x27]/.."]

/-- Like-control selectors for the desktop layout (lines 275-283, duplicated
at 884-892). -/
def likePathsDesktop : List String :=
  ["//div[@aria-label=\x27Me gusta\x27 or @aria-label=\x27Like\x27]",
   "//div[contains(@aria-label, \x27Me gusta\x27) or contains(@aria-label, \x27Like\x27)]",
   "//span[text()=\x27Me gusta\x27]/parent::div",
   "//span[contains(text(), \x27Me gusta\x27)]/ancestor::div[@role=\x27button\x27]",
   "//div[contains(@aria-label, \x27personas\x27) and contains(@aria-label, \x27Me gusta\x27)]",
   "//div[@role=\x27button\x27 and contains(@aria-label, \x27Me gusta\x27)]",
   "//div[@role=\x27button\x27 and contains(@aria-label, \x27Like\x27)]"]

/-- The variant selection of the like methods: mobile selectors when the
current URL is an m.facebook.com page, desktop selectors otherwise. -/
def likePathsFor (url : String) : List String :=
  if strContains url "m.facebook.com" then likePathsMobile else likePathsDesktop

/-- Mobile comment-button selectors (lines 393-399, duplicated at 1006-1012). -/
def mobileCommentButtons : List String :=
  ["//a[contains(text(), \x27Comentar\x27) or contains(text(), \x27Comment\x27)]",
   "//span[contains(text(), \x27Comentar\x27) or contains(text(), \x27Comment\x27)]",
   "//a[starts-with(@data-sigil, \x27feed-ufi-focus\x27)]",
   "//a[contains(@data-uri, \x27comment\x27)]",
   "//a[contains(@aria-label, \x27comentar\x27) or contains(@aria-label, \x27comment\x27)]"]

/-- Mobile comment textarea selectors (lines 414-420, duplicated at 1029-1035). -/
def mobileTextareas : List String :=
  ["//textarea[@id=\x27composerInput\x27]",
   "//textarea[contains(@placeholder, \x27coment\x27) or contains(@placeholder, \x27Comment\x27)]",
   "//textarea[@name=\x27comment_text\x27]",
   "//textarea[contains(@id, \x27comment\x27)]",
   "//textarea"]

/-- Mobile comment submit-button selectors (lines 445-451, duplicated at
1059-1065). -/
def postButtons : List String :=
  ["//input[@type=\x27submit\x27]",
   "//button[@type=\x27submit\x27]",
   "//button[contains(text(), \x27Publicar\x27) or contains(text(), \x27Post\x27)]",
   "//button[@value=\x27Post\x27]",
   "//button[contains(@data-sigil, \x27submit\x27)]"]

/-- Desktop comment-button selectors (lines 489-493, duplicated at 1097-1101). -/
def desktopCommentButtons : List String :=
  ["//span[text()=\x27Comentar\x27 or text()=\x27Comment\x27]/ancestor::div[@role=\x27button\x27]",
   "//div[@aria-label=\x27Comentar\x27 or @aria-label=\x27Comment\x27]",
   "//a[@aria-label=\x27Comentar\x27 or @aria-label=\x27Comment\x27]"]

/-- Desktop comment-area selectors of the standalone `comment_post`
(lines 508-519, six entries). -/
def commentSelectorsDesktop : List String :=
  ["//div[@aria-label=\x27Escribe un comentario...\x27 or @aria-label=\x27Write a comment...\x27]",
   "//div[@contenteditable=\x27true\x27 and @role=\x27textbox\x27]",
   "//form[@role=\x27presentation\x27]//div[@contenteditable=\x27true\x27]",
   "//div[@data-placeholder=\x27Escribe un comentario...\x27 or @data-placeholder=\x27Write a comment...\x27]",
   "//div[contains(@aria-label, \x27comentario\x27) or contains(@aria-label, \x27comment\x27)]",
   "//span[text()=\x27Comentar\x27 or text()=\x27Comment\x27]/ancestor::div[@role=\x27button\x27]"]

/-- Desktop comment-area selectors of `comment_post_in_current_view`
(lines 1118-1127, five entries). -/
def commentSelectorsView : List String :=
  ["//div[@aria-label=\x27Escribe un comentario...\x27 or @aria-label=\x27Write a comment...\x27]",
   "//div[@contenteditable=\x27true\x27 and @role=\x27textbox\x27]",
   "//form[@role=\x27presentation\x27]//div[@contenteditable=\x27true\x27]",
   "//div[@data-placeholder=\x27Escribe un comentario...\x27 or @data-placeholder=\x27Write a comment...\x27]",
   "//div[contains(@aria-label, \x27comentario\x27) or contains(@aria-label, \x27comment\x27)]"]

/-- Mobile share-button selectors (lines 634-639). -/
def shareSelectorsMobile : List String :=
  ["//a[contains(text(), \x27Compartir\x27) or contains(text(), \x27Share\x27)]",
   "//span[contains(text(), \x27Compartir\x27) or contains(text(), \x27Share\x27)]/parent::a",
   "//a[contains(@href, \x27share\x27)]",
   "//a[contains(@data-sigil, \x27share\x27)]"]

/-- Mobile "share now" selectors (lines 641-645). -/
def shareNowSelectorsMobile : List String :=
  ["//a[contains(text(), \x27Compartir ahora\x27) or contains(text(), \x27Share now\x27)]",
   "//span[contains(text(), \x27Compartir ahora\x27) or contains(text(), \x27Share now\x27)]/parent::a",
   "//a[contains(@href, \x27share_now\x27)]"]

/-- Desktop share-button selectors (lines 648-652). -/
def shareSelectorsDesktop : List String :=
  ["//span[text()=\x27Compartir\x27 or text()=\x27Share\x27]/ancestor::div[@role=\x27button\x27]",
   "//div[@aria-label=\x27Compartir\x27 or @aria-label=\x27Share\x27]",
   "//div[contains(@aria-label, \x27ompart\x27) or contains(@aria-label, \x27hare\x27)]"]

/-- Desktop "share now" selectors (lines 654-658). -/
def shareNowSelectorsDesktop : List String :=
  ["//span[text()=\x27Compartir ahora\x27 or text()=\x27Share now\x27]/ancestor::div[@role=\x27button\x27]",
   "//div[@role=\x27button\x27 and @aria-label=\x27Compartir ahora\x27 or @aria-label=\x27Share now\x27]",
   "//div[contains(text(), \x27ompartir ahora\x27) or contains(text(), \x27hare now\x27)]"]

/-- The default comment templates built into `_load_comments`. -/
def defaultComments : List String :=
  ["¡Excelente publicación!", "Muy interesante contenido", "Me encanta esto",
   "Gracias por compartir", "Impresionante"]

/-- Comment selection when none is supplied (lines 354-362): keep only
ASCII-clean templates, pick one at random (the random draw is the `rand`
index), and fall back to "Muy interesante!" when none remain. -/
def pickComment (templates : List String) (rand : Nat) : String :=
  let textComments := templates.filter (fun c => c.data.all (fun ch => ch.toNat ≤ 127))
  textComments.getD (rand % textComments.length) "Muy interesante!"

/-- `if not comment:` — a missing or empty comment argument is replaced by a
randomly selected template. -/
def resolveComment (st : BotState) (c : Option String) (rand : Nat) : String :=
  match c with
  | none => pickComment st.commentTemplates rand
  | some s => if s.isEmpty then pickComment st.commentTemplates rand else s

/-- Environment for the page part of the standalone `like_post`: whether
opening the new tab / switching to it raises (caught by the outer handler),
the URL the tab shows, the outcome of each like-selector candidate, and the
fallback role-based button scan (`find_elements` raising, and the buttons it
returns). -/
structure LikePageEnv where
  openRaises : Bool
  urlAfterOpen : String
  cand : String → CandOutcome
  altFindRaises : Bool
  altButtons : List AltButton

/-- Body of `like_post` after the session guard (lines 247-346): open the
post in a new tab, pick the mobile or desktop selector list from the
realized URL, click the first candidate that resolves, otherwise scan all
role-button elements for a like-ish aria-label; any remaining exception is
caught, logged as an error outcome, and turned into False. -/
def likePostBody (st : BotState) (p : LikePageEnv) (postUrl : String) :
    Bool × List Event × BotState :=
  if p.openRaises then
    (false, [Event.openTab postUrl, Event.activityLog "like" "error"], st)
  else
    let st1 := { st with currentUrl := p.urlAfterOpen }
    let r := candLoop p.cand true (fun x => [Event.click x]) (likePathsFor st1.currentUrl)
    match r.1 with
    | some _ =>
      (true, Event.openTab postUrl :: r.2 ++ [Event.activityLog "like" "success"], st1)
    | none =>
      if p.altFindRaises then (false, Event.openTab postUrl :: r.2, st1)
      else
        match p.altButtons.find? altMatch with
        | some b =>
          (true, Event.openTab postUrl :: r.2
                 ++ [Event.click (b.ariaLabel.getD ""), Event.activityLog "like" "success"], st1)
        | none => (false, Event.openTab postUrl :: r.2, st1)

/-- `FacebookBotSelenium.like_post` (lines 241-346). -/
def like_post (st : BotState) (lenv : LoginEnv) (p : LikePageEnv) (postUrl : String) :
    Bool × List Event × BotState :=
  guardLogin st lenv (fun st2 => likePostBody st2 p postUrl)

/-- Environment for `like_post_in_current_view`: whether the initial
`find_element("//body")` / scroll raises (outer handler), the elements each
like-selector's `find_elements` returns, and the fallback button scan. -/
structure LikeViewEnv where
  outerRaises : Bool
  cand : String → List Elem
  altFindRaises : Bool
  altButtons : List AltButton

/-- Body of `like_post_in_current_view` after the session guard (lines
850-961): no navigation happens; each selector's `find_elements` result is
scanned for the first visible button, which is clicked; on exhaustion the
role-button fallback scan runs with a visibility check. -/
def likeViewBody (st : BotState) (p : LikeViewEnv) (postUrl : String) :
    Bool × List Event × BotState :=
  if p.outerRaises then
    (false, [Event.activityLog "like" "error"], st)
  else
    let r := candLoop (fun x => scanOutcome (p.cand x)) false (fun x => [Event.click x])
               (likePathsFor st.currentUrl)
    match r.1 with
    | some _ => (true, r.2 ++ [Event.activityLog "like" "success"], st)
    | none =>
      if p.altFindRaises then (false, r.2, st)
      else
        match p.altButtons.find? altMatchV with
        | some b =>
          (true, r.2 ++ [Event.click (b.ariaLabel.getD ""), Event.activityLog "like" "success"], st)
        | none => (false, r.2, st)

/-- `FacebookBotSelenium.like_post_in_current_view` (lines 844-961). -/
def like_post_in_current_view (st : BotState) (lenv : LoginEnv) (p : LikeViewEnv)
    (postUrl : String) : Bool × List Event × BotState :=
  guardLogin st lenv (fun st2 => likeViewBody st2 p postUrl)

/-- Environment for the standalone `comment_post`: whether the body raises
outside the candidate loops (outer handler), the URL realized if the method
navigates, the outcome of each candidate of the mobile comment-button loop,
of the comment-area loops (mobile textareas / desktop areas), of the mobile
submit-button loop, of the desktop comment-button loop, and the elements of
the final generic editable-element scan. -/
structure CommentEnv where
  outerRaises : Bool
  urlAfterNav : String
  mobileBtn : String → CandOutcome
  areaCand : String → CandOutcome
  submitBtn : String → CandOutcome
  desktopBtn : String → CandOutcome
  genericElems : List Elem

/-- Events of a successful mobile textarea interaction of the standalone
`comment_post` (lines 422-476): click and fill the textarea, then click the
first submit button that resolves, or press ENTER when none does. -/
def typeHitEvents (comment : String) (submitBtn : String → CandOutcome) (x : String) :
    List Event :=
  let s := candLoop submitBtn false (fun b => [Event.click b]) postButtons
  [Event.click x, Event.typeText comment] ++ s.2
  ++ (match s.1 with
      | some _ => []
      | none => [Event.typeText "ENTER"])

/-- Body of `comment_post` after the session guard and comment selection
(lines 364-610): navigate to the post only when the current URL is not a
facebook.com page; then run the variant-specific comment-button loop
(best-effort), the comment-area loop, and on exhaustion the generic
editable-element scan (no visibility filter in this standalone variant);
any remaining exception is caught, logged as an error outcome, and turned
into False. -/
def commentPostBody (st : BotState) (env : CommentEnv) (postUrl : String)
    (comment : String) : Bool × List Event × BotState :=
  if env.outerRaises then
    (false, [Event.activityLog "comment" "error"], st)
  else
    let navEv := if strContains st.currentUrl "facebook.com" then ([] : List Event)
                 else [Event.navigate postUrl]
    let st1 := if strContains st.currentUrl "facebook.com" then st
               else { st with currentUrl := env.urlAfterNav }
    let isMobile := strContains st1.currentUrl "m.facebook.com"
    let btnEv :=
      if isMobile then
        (candLoop env.mobileBtn false (fun x => [Event.click x]) mobileCommentButtons).2
      else
        (candLoop env.desktopBtn false (fun x => [Event.click x]) desktopCommentButtons).2
    let areaSels := if isMobile then mobileTextareas else commentSelectorsDesktop
    let onHit := fun x =>
      if isMobile then typeHitEvents comment env.submitBtn x
      else [Event.click x, Event.typeText comment, Event.typeText "ENTER"]
    let r := candLoop env.areaCand true onHit areaSels
    match r.1 with
    | some _ =>
      (true, navEv ++ btnEv ++ r.2 ++ [Event.activityLog "comment" "success"], st1)
    | none =>
      match env.genericElems.find? (fun e => !e.raises) with
      | some _ =>
        (true, navEv ++ btnEv ++ r.2
               ++ [Event.typeText comment, Event.activityLog "comment" "success"], st1)
      | none => (false, navEv ++ btnEv ++ r.2, st1)

/-- `FacebookBotSelenium.comment_post` (lines 348-610). -/
def comment_post (st : BotState) (lenv : LoginEnv) (env : CommentEnv) (postUrl : String)
    (comment : Option String) (rand : Nat) : Bool × List Event × BotState :=
  guardLogin st lenv (fun st2 => commentPostBody st2 env postUrl (resolveComment st2 comment rand))

/-- Environment for `comment_post_in_current_view`: the elements each
selector's `find_elements` returns for the comment-button, comment-area and
submit-button loops, and for the generic scan (which here filters on
visibility). -/
structure CommentViewEnv where
  outerRaises : Bool
  btnCands : String → List Elem
  areaCands : String → List Elem
  submitCands : String → List Elem
  genericElems : List Elem

/-- Events of a successful textarea interaction of
`comment_post_in_current_view` (lines 1037-1092): fill the textarea, click
one visible submit button per submit selector (the inner `break` does not
stop the outer loop), and press ENTER only when no submit button was
clicked at all. -/
def typeHitEventsView (comment : String) (submitCands : String → List Elem) (x : String) :
    List Event :=
  let s := clickAllLoop (fun b => scanOutcome (submitCands b)) postButtons
  [Event.click x, Event.typeText comment] ++ s
  ++ (if s.isEmpty then [Event.typeText "ENTER"] else [])

/-- Body of `comment_post_in_current_view` after the session guard and
comment selection (lines 979-1216): no navigation; the comment-button loop
clicks one visible button per selector (best-effort, the outer loop keeps
running), the comment-area loop acts on the first selector with a visible
area, and on exhaustion the generic scan takes the first visible editable
element. -/
def commentViewBody (st : BotState) (env : CommentViewEnv) (postUrl : String)
    (comment : String) : Bool × List Event × BotState :=
  if env.outerRaises then
    (false, [Event.activityLog "comment" "error"], st)
  else
    let isMobile := strContains st.currentUrl "m.facebook.com"
    let btnEv := clickAllLoop (fun x => scanOutcome (env.btnCands x))
                   (if isMobile then mobileCommentButtons else desktopCommentButtons)
    let areaSels := if isMobile then mobileTextareas else commentSelectorsView
    let onHit := fun x =>
      if isMobile then typeHitEventsView comment env.submitCands x
      else [Event.click x, Event.typeText comment, Event.typeText "ENTER"]
    let r := candLoop (fun x => scanOutcome (env.areaCands x)) false onHit areaSels
    match r.1 with
    | some _ =>
      (true, btnEv ++ r.2 ++ [Event.activityLog "comment" "success"], st)
    | none =>
      match env.genericElems.find? (fun e => e.visible && !e.raises) with
      | some _ =>
        (true, btnEv ++ r.2 ++ [Event.typeText comment, Event.activityLog "comment" "success"], st)
      | none => (false, btnEv ++ r.2, st)

/-- `FacebookBotSelenium.comment_post_in_current_view` (lines 963-1216). -/
def comment_post_in_current_view (st : BotState) (lenv : LoginEnv) (env : CommentViewEnv)
    (postUrl : String) (comment : Option String) (rand : Nat) : Bool × List Event × BotState :=
  guardLogin st lenv (fun st2 => commentViewBody st2 env postUrl (resolveComment st2 comment rand))

/-- Environment for `share_post`: outcome of each share-button candidate
(`found` = wait and click both succeed, `thrown` = the wait succeeded so the
`share_button` variable was assigned but the scroll/click raised,
`notFound` = the wait itself raised) and of each "share now" candidate. -/
structure ShareEnv where
  outerRaises : Bool
  urlAfterNav : String
  shareCand : String → CandOutcome
  shareNowCand : String → CandOutcome

/-- The share-button loop (lines 661-674).  It returns whether a candidate
was fully clicked (loop `break`), whether the `share_button` variable was
ever assigned — the source's subsequent `if not share_button` check only
tests assignment, so a candidate whose wait succeeded but whose click raised
still counts — and the events. -/
def shareBtnLoop (out : String → CandOutcome) : List String → Bool × Bool × List Event
  | [] => (false, false, [])
  | x :: rest =>
    match out x with
    | CandOutcome.found => (true, true, [Event.waitBounded x, Event.click x])
    | CandOutcome.thrown =>
      let r := shareBtnLoop out rest
      (r.1, true, Event.waitBounded x :: r.2.2)
    | CandOutcome.notFound =>
      let r := shareBtnLoop out rest
      (r.1, r.2.1, Event.waitBounded x :: r.2.2)

/-- Body of `share_post` after the session guard (lines 618-706): navigate
to the post only when the current URL is not a facebook.com page, click the
share control, then the "share now" confirmation; a missing share button or
missing confirmation returns False; the success record is written only when
both clicks happened. -/
def sharePostBody (st : BotState) (env : ShareEnv) (postUrl : String) :
    Bool × List Event × BotState :=
  if env.outerRaises then
    (false, [Event.activityLog "share" "error"], st)
  else
    let navEv := if strContains st.currentUrl "facebook.com" then ([] : List Event)
                 else [Event.navigate postUrl]
    let st1 := if strContains st.currentUrl "facebook.com" then st
               else { st with currentUrl := env.urlAfterNav }
    let isMobile := strContains st1.currentUrl "m.facebook.com"
    let r := shareBtnLoop env.shareCand
               (if isMobile then shareSelectorsMobile else shareSelectorsDesktop)
    if !r.2.1 then (false, navEv ++ r.2.2, st1)
    else
      let n := candLoop env.shareNowCand true (fun x => [Event.click x])
                 (if isMobile then shareNowSelectorsMobile else shareNowSelectorsDesktop)
      match n.1 with
      | some _ =>
        (true, navEv ++ r.2.2 ++ n.2 ++ [Event.activityLog "share" "success"], st1)
      | none => (false, navEv ++ r.2.2 ++ n.2, st1)

/-- `FacebookBotSelenium.share_post` (lines 612-706). -/
def share_post (st : BotState) (lenv : LoginEnv) (env : ShareEnv) (postUrl : String) :
    Bool × List Event × BotState :=
  guardLogin st lenv (fun st2 => sharePostBody st2 env postUrl)

/-- `url.split("/")` on character lists, keeping empty segments like Python. -/
def splitSlashAux (cur : List Char) : List Char → List (List Char)
  | [] => [cur.reverse]
  | c :: rest =>
    if c == '/' then cur.reverse :: splitSlashAux [] rest
    else splitSlashAux (c :: cur) rest

/-- The post-identifier extraction of `interact_with_post` and
`find_specific_post` (lines 1230-1237): the first path segment of the URL
starting with "pfbid". -/
def extractPostId (url : String) : Option (List Char) :=
  (splitSlashAux [] url.data).find? (fun part => isPrefixCharList "pfbid".data part)

/-- Environment for one run of `interact_with_post`: the login environment
used by the session guard, the URL the browser shows after the initial
navigation plus `find_specific_post` (and after the retry navigation), the
two `find_specific_post` results (only logged by the source), the
environments of the three delegated actions, and the random draw used for
the default comment. -/
structure InteractEnv where
  loginEnv : LoginEnv
  realizedUrl1 : String
  realizedUrl2 : String
  findPost1 : Bool
  findPost2 : Bool
  likeView : LikeViewEnv
  commentView : CommentViewEnv
  share : ShareEnv
  rand : Nat

/-- The navigation-drift test of `interact_with_post` (line 1252):
`if post_id and post_id not in current_url`. -/
def driftDetected (env : InteractEnv) (url : String) : Bool :=
  match extractPostId url with
  | some pid => !containsAux pid env.realizedUrl1.data
  | none => false

/-- The navigation and post-scoping phase of `interact_with_post` (lines
1226-1265): navigate to the exact URL provided, locate the post, and when
the extracted identifier is missing from the realized URL re-navigate to the
original URL exactly once (the source has a single straight-line retry and
never re-checks). -/
def interactNavPhase (st : BotState) (env : InteractEnv) (postUrl : String) :
    List Event × BotState :=
  if driftDetected env postUrl then
    ([Event.navigate postUrl, Event.navigate postUrl], { st with currentUrl := env.realizedUrl2 })
  else
    ([Event.navigate postUrl], { st with currentUrl := env.realizedUrl1 })

/-- Body of `interact_with_post` after the session guard (lines 1224-1285):
run the navigation phase, then the requested actions in the fixed order
like, comment, share, each delegated to its in-current-view method (share to
`share_post`); `success` starts True and any failed requested action forces
it False without stopping the remaining actions. -/
def interactBody (st : BotState) (env : InteractEnv) (postUrl : String)
    (like comment share : Bool) : Bool × List Event × BotState :=
  let nav := interactNavPhase st env postUrl
  let likeR := like_post_in_current_view nav.2 env.loginEnv env.likeView postUrl
  let r1 := if like then likeR else (true, [], nav.2)
  let commentR := comment_post_in_current_view r1.2.2 env.loginEnv env.commentView postUrl
                    none env.rand
  let r2 := if comment then commentR else (true, [], r1.2.2)
  let shareR := share_post r2.2.2 env.loginEnv env.share postUrl
  let r3 := if share then shareR else (true, [], r2.2.2)
  (r1.1 && r2.1 && r3.1, nav.1 ++ r1.2.1 ++ r2.2.1 ++ r3.2.1, r3.2.2)

/-- `FacebookBotSelenium.interact_with_post` (lines 1218-1285). -/
def interact_with_post (st : BotState) (env : InteractEnv) (postUrl : String)
    (like comment share : Bool) : Bool × List Event × BotState :=
  guardLogin st env.loginEnv (fun st2 => interactBody st2 env postUrl like comment share)

/-- The fresh bot state built by `FacebookBotSelenium.__init__`. -/
def freshBot : BotState :=
  { connected := false, driverStarted := false, currentUrl := "",
    commentTemplates := defaultComments }

/-- `run_facebook_bot` (lines 1297-1340): build a fresh bot, log in, abort
with False when login fails, otherwise run `interact_with_post` and return
its aggregate result. -/
def run_facebook_bot (username password postUrl : String) (like comment share : Bool)
    (env : InteractEnv) : Bool × List Event :=
  let r := login freshBot env.loginEnv
  if r.1 = LoginOutcome.ok then
    let i := interact_with_post r.2.2 env postUrl like comment share
    (i.1, r.2.1 ++ i.2.1)
  else
    (false, r.2.1)

end FBBot

namespace FBCli

open FBBot

/-- One record of the configuration file's `accounts` array; `none` models a
missing key (dict.get returns None). -/
structure Account where
  username : Option String
  password : Option String
deriving DecidableEq

/-- The parsed configuration file; `accounts := none` models a missing
`accounts` key. -/
structure Config where
  accounts : Option (List Account)
deriving DecidableEq

/-- Python falsiness of a credential read with `.get`: missing (None) or the
empty string. -/
def credFalsy : Option String → Bool
  | none => true
  | some s => s.isEmpty

/-- The configuration conditions under which both entry points abort before
running the bot: missing `accounts` key, empty account list, or a first
account whose username or password is falsy. -/
def credsMissing (cfg : Config) : Bool :=
  match cfg.accounts with
  | none => true
  | some [] => true
  | some (a :: _) => credFalsy a.username || credFalsy a.password

/-- Environment of one CLI-driven run: the parsed configuration file (`none`
when reading or parsing it raises) and the browser environment of the run it
may start. -/
structure CliEnv where
  config : Option Config
  bot : InteractEnv

/-- `facebook_cli.run_bot` (facebook_cli.py lines 43-96): validate the URL's
domain, load and validate credentials — any missing piece returns False
before any browser action — then run `run_facebook_bot` with like and
comment requested and share not requested. -/
def run_bot (postUrl : String) (env : CliEnv) : Bool × List Event :=
  if !(strContains postUrl "facebook.com" || strContains postUrl "fb.com") then (false, [])
  else
    match env.config with
    | none => (false, [])
    | some cfg =>
      match cfg.accounts with
      | none => (false, [])
      | some [] => (false, [])
      | some (account :: _) =>
        if credFalsy account.username || credFalsy account.password then (false, [])
        else
          run_facebook_bot (account.username.getD "") (account.password.getD "")
            postUrl true true false env.bot

/-- `facebook_cli.interact_with_post` (lines 99-142): re-validate the URL's
domain, then delegate to `run_bot` and return its result. -/
def interact_with_post (url : String) (env : CliEnv) : Bool :=
  if !(strContains url "facebook.com" || strContains url "fb.com") then false
  else (run_bot url env).1

/-- The per-URL loop of `batch_process` (lines 160-198): an invalid line is
counted as failed and skipped; otherwise `run_bot` runs with the
environment of that position and its result is tallied.  Returns
(successful, failed). -/
def batchLoop (envs : Nat → CliEnv) : Nat → List String → Nat × Nat
  | _, [] => (0, 0)
  | i, url :: rest =>
    if !(strContains url "facebook.com" || strContains url "fb.com") then
      let r := batchLoop envs (i + 1) rest
      (r.1, r.2 + 1)
    else
      let b := (run_bot url (envs i)).1
      let r := batchLoop envs (i + 1) rest
      if b then (r.1 + 1, r.2) else (r.1, r.2 + 1)

/-- `facebook_cli.batch_process` (lines 145-205): a missing URL file returns
False; otherwise the batch runs and the aggregate is `failed == 0`. -/
def batch_process (fileExists : Bool) (urls : List String) (envs : Nat → CliEnv) : Bool :=
  if !fileExists then false
  else (batchLoop envs 0 urls).2 == 0

/-- The parsed command of facebook_cli.py. -/
inductive CliCmd
  | interactCmd (url : String)
  | batchCmd (fileExists : Bool) (urls : List String)
  | noCmd
deriving DecidableEq

/-- `facebook_cli.main` (lines 229-249) as the process exit status: no
command exits 1, otherwise the command's boolean result is mapped by
`sys.exit(0 if result else 1)`. -/
def main (cmd : CliCmd) (envs : Nat → CliEnv) : Nat :=
  match cmd with
  | .noCmd => 1
  | .interactCmd url => if interact_with_post url (envs 0) then 0 else 1
  | .batchCmd fileExists urls => if batch_process fileExists urls envs then 0 else 1

end FBCli

namespace FBRun

open FBBot FBCli

/-- `run_facebook_bot.py main` (lines 31-87): require a URL argument, load
and validate credentials exactly like the CLI — any missing piece returns
False before any browser action — then run `run_facebook_bot` with like and
comment requested and share not requested, returning its result. -/
def main (argv1 : Option String) (env : CliEnv) : Bool × List Event :=
  match argv1 with
  | none => (false, [])
  | some postUrl =>
    match env.config with
    | none => (false, [])
    | some cfg =>
      match cfg.accounts with
      | none => (false, [])
      | some [] => (false, [])
      | some (account :: _) =>
        if credFalsy account.username || credFalsy account.password then (false, [])
        else
          run_facebook_bot (account.username.getD "") (account.password.getD "")
            postUrl true true false env.bot

/-- The `__main__` block of run_facebook_bot.py (lines 89-96): it calls
`main()` but discards its boolean result, so a run that completes without an
unhandled exception makes the process exit with status 0 whatever the
outcome was. -/
def scriptExitCode (argv1 : Option String) (env : CliEnv) : Nat :=
  let _r := main argv1 env
  0

end FBRun

namespace FBBot

/-- Concrete fixture: a login page where everything succeeds. -/
def lenvAny : LoginEnv :=
  { setupOk := true, credEntryOk := true, errorBoxPresent := false,
    approvalsCodePresent := false, urlAfterLogin := "https://www.facebook.com/" }

/-- Concrete fixture: browser setup fails, so login fails. -/
def lenvFail : LoginEnv :=
  { setupOk := false, credEntryOk := true, errorBoxPresent := false,
    approvalsCodePresent := false, urlAfterLogin := "" }

/-- Concrete fixture: the resulting page shows only the two-factor
`approvals_code` field. -/
def lenvVerif : LoginEnv :=
  { setupOk := true, credEntryOk := true, errorBoxPresent := false,
    approvalsCodePresent := true, urlAfterLogin := "https://www.facebook.com/checkpoint" }

/-- Concrete fixture: the resulting page shows both the `login_error_box`
region and the two-factor `approvals_code` field. -/
def lenvBoth : LoginEnv :=
  { setupOk := true, credEntryOk := true, errorBoxPresent := true,
    approvalsCodePresent := true, urlAfterLogin := "https://www.facebook.com/checkpoint" }

/-- Concrete fixture: an authenticated bot sitting on a desktop page. -/
def stConnected : BotState :=
  { connected := true, driverStarted := true,
    currentUrl := "https://www.facebook.com/", commentTemplates := defaultComments }

/-- Concrete fixture: an authenticated bot sitting on a non-facebook page. -/
def stElsewhere : BotState :=
  { connected := true, driverStarted := true,
    currentUrl := "about:blank", commentTemplates := defaultComments }

/-- Concrete fixture: a like-page environment where no candidate and no
fallback button matches. -/
def pNoMatch : LikePageEnv :=
  { openRaises := false, urlAfterOpen := "https://www.facebook.com/user/posts/pfbid0abc",
    cand := fun _ => CandOutcome.notFound, altFindRaises := false, altButtons := [] }

/-- Concrete fixture: a like-page environment where every candidate's query
raises and the fallback scan is empty. -/
def pAllThrown : LikePageEnv :=
  { openRaises := false, urlAfterOpen := "https://www.facebook.com/user/posts/pfbid0abc",
    cand := fun _ => CandOutcome.thrown, altFindRaises := false, altButtons := [] }

/-- Concrete fixture: a comment environment where every candidate's query
raises and the generic scan only yields raising elements. -/
def cenvAllThrown : CommentEnv :=
  { outerRaises := false, urlAfterNav := "https://www.facebook.com/post",
    mobileBtn := fun _ => CandOutcome.thrown, areaCand := fun _ => CandOutcome.thrown,
    submitBtn := fun _ => CandOutcome.thrown, desktopBtn := fun _ => CandOutcome.thrown,
    genericElems := [{ visible := true, raises := true }] }

/-- Concrete fixture: an empty in-current-view like environment. -/
def likeViewTrivial : LikeViewEnv :=
  { outerRaises := false, cand := fun _ => [], altFindRaises := false, altButtons := [] }

/-- Concrete fixture: an empty in-current-view comment environment. -/
def commentViewTrivial : CommentViewEnv :=
  { outerRaises := false, btnCands := fun _ => [], areaCands := fun _ => [],
    submitCands := fun _ => [], genericElems := [] }

/-- Concrete fixture: a share environment where nothing resolves. -/
def shareTrivial : ShareEnv :=
  { outerRaises := false, urlAfterNav := "https://www.facebook.com/post",
    shareCand := fun _ => CandOutcome.notFound, shareNowCand := fun _ => CandOutcome.notFound }

/-- Concrete fixture: a standalone comment environment where nothing
resolves. -/
def cenvTrivial : CommentEnv :=
  { outerRaises := false, urlAfterNav := "https://www.facebook.com/post",
    mobileBtn := fun _ => CandOutcome.notFound, areaCand := fun _ => CandOutcome.notFound,
    submitBtn := fun _ => CandOutcome.notFound, desktopBtn := fun _ => CandOutcome.notFound,
    genericElems := [] }

/-- Concrete fixture: a full interaction environment whose realized URL
still contains the post identifier. -/
def ienvTrivial : InteractEnv :=
  { loginEnv := lenvAny,
    realizedUrl1 := "https://www.facebook.com/user/posts/pfbid0abc",
    realizedUrl2 := "https://www.facebook.com/user/posts/pfbid0abc",
    findPost1 := true, findPost2 := true,
    likeView := likeViewTrivial, commentView := commentViewTrivial,
    share := shareTrivial, rand := 0 }

/-- Concrete fixture: the browser is redirected away from the post after the
first navigation (the realized URL has lost the identifier). -/
def ienvDrift : InteractEnv :=
  { ienvTrivial with realizedUrl1 := "https://www.facebook.com/login" }

/-- Concrete fixture: an interaction environment whose login fails. -/
def ienvLoginFail : InteractEnv :=
  { ienvTrivial with loginEnv := lenvFail }

/-- Concrete fixture: the post URL used by the witnesses. -/
def urlWithId : String := "https://www.facebook.com/user/posts/pfbid0abc"

/-- Concrete fixture: the candidate outcomes used by the priority-order
witness — the second and the fourth candidate both match. -/
def candTwoMatches : String → CandOutcome :=
  fun x => if x == "b" || x == "d" then CandOutcome.found else CandOutcome.notFound

end FBBot

namespace FBCli

open FBBot

/-- Concrete fixture: a configuration whose first account has a username but
no password. -/
def cfgMissingPassword : Config :=
  { accounts := some [{ username := some "user@example.com", password := none }] }

/-- Concrete fixture: a CLI environment with that configuration. -/
def cliEnvMissingPassword : CliEnv :=
  { config := some cfgMissingPassword, bot := ienvTrivial }

/-- Concrete fixture: a well-formed configuration. -/
def cfgOk : Config :=
  { accounts := some [{ username := some "user@example.com", password := some "hunter2" }] }

/-- Concrete fixture: a CLI environment with valid credentials whose browser
login nevertheless fails, so the single target fails. -/
def cliEnvLoginFails : CliEnv :=
  { config := some cfgOk, bot := ienvLoginFail }

end FBCli



/-
Theorems.  Helper lemmas come first; each claim then gets exactly one
theorem, with a witness when the theorem has hypotheses.
-/

open FBBot

namespace FBBot

theorem login_interactions_nil (st : BotState) (env : LoginEnv) :
    interactions (login st env).2.1 = [] := by
  unfold login interactions
  split_ifs <;> simp [Event.isInteraction]

theorem login_countNav_zero (st : BotState) (env : LoginEnv) :
    countNav (login st env).2.1 = 0 := by
  unfold login countNav
  split_ifs <;> simp [Event.isNav]

theorem guardLogin_connected (st : BotState) (lenv : LoginEnv)
    (body : BotState → Bool × List Event × BotState) (h : st.connected = true) :
    guardLogin st lenv body = body st := by
  unfold guardLogin
  simp [h]

theorem guardLogin_loginFail (st : BotState) (lenv : LoginEnv)
    (body : BotState → Bool × List Event × BotState)
    (h1 : st.connected = false) (h2 : (login st lenv).1 ≠ LoginOutcome.ok) :
    guardLogin st lenv body = (false, (login st lenv).2.1, (login st lenv).2.2) := by
  unfold guardLogin
  simp [h1, h2]

theorem beq_notFound_found : (CandOutcome.notFound == CandOutcome.found) = false := rfl

theorem beq_thrown_found : (CandOutcome.thrown == CandOutcome.found) = false := rfl

theorem beq_found_found : (CandOutcome.found == CandOutcome.found) = true := rfl

theorem candLoop_fst (out : String → CandOutcome) (useWait : Bool)
    (onHit : String → List Event) (l : List String) :
    (candLoop out useWait onHit l).1 = l.find? (fun x => out x == CandOutcome.found) := by
  induction l with
  | nil => rfl
  | cons x rest ih =>
    cases h : out x <;>
      simp [candLoop, h, List.find?, ih, beq_notFound_found, beq_thrown_found, beq_found_found]

theorem candLoop_none (out : String → CandOutcome) (useWait : Bool)
    (onHit : String → List Event) (l : List String)
    (h : ∀ x, out x ≠ CandOutcome.found) :
    (candLoop out useWait onHit l).1 = none := by
  rw [candLoop_fst]
  refine List.find?_eq_none.mpr (fun x _ => ?_)
  cases hx : out x <;> simp_all

theorem find_first_of_none_before {α : Type} (p : α → Bool) (l : List α) :
    ∀ (i : Nat) (hi : i < l.length),
      p (l.get ⟨i, hi⟩) = true →
      (∀ j (hj : j < i), p (l.get ⟨j, Nat.lt_trans hj hi⟩) = false) →
      l.find? p = some (l.get ⟨i, hi⟩) := by
  induction l with
  | nil => intro i hi; simp at hi
  | cons x rest ih =>
    intro i hi hp hj
    cases i with
    | zero =>
      simp only [List.get] at hp
      simp [List.find?, hp]
    | succ n =>
      have h0 : p x = false := by simpa using hj 0 (Nat.succ_pos n)
      have hrec := ih n (by simpa using hi) (by simpa using hp)
        (fun j hjn => by simpa using hj (j + 1) (by omega))
      simp [List.find?, h0, hrec]

theorem candLoop_demote (out : String → CandOutcome) (useWait : Bool)
    (onHit : String → List Event) (l : List String) :
    candLoop (demoteThrown out) useWait onHit l = candLoop out useWait onHit l := by
  induction l with
  | nil => rfl
  | cons x rest ih =>
    cases h : out x <;> simp [candLoop, demoteThrown, h, ih]

theorem countWaits_append (a b : List Event) :
    countWaits (a ++ b) = countWaits a + countWaits b := by
  simp [countWaits, List.countP_append]

theorem countNav_append (a b : List Event) :
    countNav (a ++ b) = countNav a + countNav b := by
  simp [countNav, List.countP_append]

theorem countWaits_nil : countWaits [] = 0 := rfl

theorem countWaits_cons (e : Event) (l : List Event) :
    countWaits (e :: l) = countWaits l + (if e.isWait then 1 else 0) := by
  simp [countWaits, List.countP_cons]

theorem countNav_nil : countNav [] = 0 := rfl

theorem countNav_cons (e : Event) (l : List Event) :
    countNav (e :: l) = countNav l + (if e.isNav then 1 else 0) := by
  simp [countNav, List.countP_cons]

theorem candLoop_countWaits (out : String → CandOutcome) (onHit : String → List Event)
    (h : ∀ x, countWaits (onHit x) = 0) (l : List String) :
    countWaits (candLoop out true onHit l).2 =
      min ((l.takeWhile (fun x => !(out x == CandOutcome.found))).length + 1) l.length := by
  induction l with
  | nil => simp [candLoop, countWaits_nil]
  | cons x rest ih =>
    cases hx : out x
    · have e1 : (candLoop out true onHit (x :: rest)).2 = Event.waitBounded x :: onHit x := by
        simp [candLoop, hx]
      rw [e1, countWaits_cons, h x]
      simp [List.takeWhile, hx, beq_found_found, Event.isWait]
    · have e1 : (candLoop out true onHit (x :: rest)).2 =
          Event.waitBounded x :: (candLoop out true onHit rest).2 := by
        simp [candLoop, hx]
      rw [e1, countWaits_cons, ih]
      simp [List.takeWhile, hx, beq_notFound_found, Event.isWait]
      omega
    · have e1 : (candLoop out true onHit (x :: rest)).2 =
          Event.waitBounded x :: (candLoop out true onHit rest).2 := by
        simp [candLoop, hx]
      rw [e1, countWaits_cons, ih]
      simp [List.takeWhile, hx, beq_thrown_found, Event.isWait]
      omega

theorem candLoop_countNav (out : String → CandOutcome) (useWait : Bool)
    (onHit : String → List Event) (h : ∀ x, countNav (onHit x) = 0) (l : List String) :
    countNav (candLoop out useWait onHit l).2 = 0 := by
  induction l with
  | nil => simp [candLoop, countNav_nil]
  | cons x rest ih =>
    cases hx : out x <;> cases useWait <;>
      simp [candLoop, hx, countNav_append, countNav_cons, countNav_nil, Event.isNav, h, ih]

theorem clickAllLoop_countNav (out : String → CandOutcome) (l : List String) :
    countNav (clickAllLoop out l) = 0 := by
  induction l with
  | nil => simp [clickAllLoop, countNav_nil]
  | cons x rest ih =>
    by_cases hx : out x = CandOutcome.found <;>
      simp [clickAllLoop, hx, countNav_append, countNav_cons, countNav_nil, Event.isNav, ih]

theorem shareBtnLoop_countNav (out : String → CandOutcome) (l : List String) :
    countNav (shareBtnLoop out l).2.2 = 0 := by
  induction l with
  | nil => simp [shareBtnLoop, countNav_nil]
  | cons x rest ih =>
    cases hx : out x <;>
      simp [shareBtnLoop, hx, countNav_cons, countNav_nil, Event.isNav, ih]

theorem typeHitEvents_countNav (comment : String) (submitBtn : String → CandOutcome)
    (x : String) : countNav (typeHitEvents comment submitBtn x) = 0 := by
  unfold typeHitEvents
  have h := candLoop_countNav submitBtn false (fun b => [Event.click b])
    (fun _ => by simp [countNav_cons, countNav_nil, Event.isNav]) postButtons
  cases hs : (candLoop submitBtn false (fun b => [Event.click b]) postButtons).1 <;>
    simp [hs, countNav_append, countNav_cons, countNav_nil, Event.isNav, h]

theorem typeHitEventsView_countNav (comment : String) (submitCands : String → List Elem)
    (x : String) : countNav (typeHitEventsView comment submitCands x) = 0 := by
  unfold typeHitEventsView
  have h := clickAllLoop_countNav (fun b => scanOutcome (submitCands b)) postButtons
  by_cases hs : (clickAllLoop (fun b => scanOutcome (submitCands b)) postButtons).isEmpty <;>
    simp [hs, countNav_append, countNav_cons, countNav_nil, Event.isNav, h]

theorem guardLogin_countNav (st : BotState) (lenv : LoginEnv)
    (body : BotState → Bool × List Event × BotState)
    (hbody : ∀ s, countNav (body s).2.1 = 0) :
    countNav (guardLogin st lenv body).2.1 = 0 := by
  simp only [guardLogin]
  split
  · exact hbody st
  · split
    · simp [countNav_append, hbody, login_countNav_zero]
    · exact login_countNav_zero st lenv

theorem likeViewBody_state (st : BotState) (p : LikeViewEnv) (url : String) :
    (likeViewBody st p url).2.2 = st := by
  simp only [likeViewBody]
  split
  · rfl
  · split
    · rfl
    · split
      · rfl
      · split
        · rfl
        · rfl

theorem commentViewBody_state (st : BotState) (env : CommentViewEnv) (url comment : String) :
    (commentViewBody st env url comment).2.2 = st := by
  simp only [commentViewBody]
  split
  · rfl
  · split
    · rfl
    · split
      · rfl
      · rfl

theorem like_post_in_current_view_state (st : BotState) (lenv : LoginEnv) (p : LikeViewEnv)
    (url : String) (h : st.connected = true) :
    (like_post_in_current_view st lenv p url).2.2 = st := by
  unfold like_post_in_current_view
  rw [guardLogin_connected _ _ _ h]
  exact likeViewBody_state st p url

theorem comment_post_in_current_view_state (st : BotState) (lenv : LoginEnv)
    (env : CommentViewEnv) (url : String) (c : Option String) (rand : Nat)
    (h : st.connected = true) :
    (comment_post_in_current_view st lenv env url c rand).2.2 = st := by
  unfold comment_post_in_current_view
  rw [guardLogin_connected _ _ _ h]
  exact commentViewBody_state st env url _

theorem likeViewBody_countNav (st : BotState) (p : LikeViewEnv) (url : String) :
    countNav (likeViewBody st p url).2.1 = 0 := by
  have h := candLoop_countNav (fun x => scanOutcome (p.cand x)) false (fun x => [Event.click x])
    (fun _ => by simp [countNav_cons, countNav_nil, Event.isNav]) (likePathsFor st.currentUrl)
  simp only [likeViewBody]
  split
  · simp [countNav_cons, countNav_nil, Event.isNav]
  · split
    · simp [countNav_append, countNav_cons, countNav_nil, Event.isNav, h]
    · split
      · exact h
      · split
        · simp [countNav_append, countNav_cons, countNav_nil, Event.isNav, h]
        · exact h

theorem commentViewBody_countNav (st : BotState) (env : CommentViewEnv) (url comment : String) :
    countNav (commentViewBody st env url comment).2.1 = 0 := by
  have hbtn1 := clickAllLoop_countNav (fun x => scanOutcome (env.btnCands x)) mobileCommentButtons
  have hbtn2 := clickAllLoop_countNav (fun x => scanOutcome (env.btnCands x)) desktopCommentButtons
  have harea : ∀ sels, countNav (candLoop (fun x => scanOutcome (env.areaCands x)) false
      (fun x => if strContains st.currentUrl "m.facebook.com" then
                  typeHitEventsView comment env.submitCands x
                else [Event.click x, Event.typeText comment, Event.typeText "ENTER"]) sels).2 = 0 := by
    intro sels
    refine candLoop_countNav _ _ _ (fun x => ?_) sels
    by_cases hm : strContains st.currentUrl "m.facebook.com" <;>
      simp [hm, typeHitEventsView_countNav, countNav_cons, countNav_nil, Event.isNav]
  simp only [commentViewBody]
  split
  · simp [countNav_cons, countNav_nil, Event.isNav]
  · by_cases hm : strContains st.currentUrl "m.facebook.com" <;>
      [skip; skip] <;>
      split <;>
        simp_all [countNav_append, countNav_cons, countNav_nil, Event.isNav, hbtn1, hbtn2, harea] <;>
          split <;>
            simp_all [countNav_append, countNav_cons, countNav_nil, Event.isNav]

theorem like_post_in_current_view_countNav (st : BotState) (lenv : LoginEnv)
    (p : LikeViewEnv) (url : String) :
    countNav (like_post_in_current_view st lenv p url).2.1 = 0 := by
  unfold like_post_in_current_view
  exact guardLogin_countNav _ _ _ (fun s => likeViewBody_countNav s p url)

theorem comment_post_in_current_view_countNav (st : BotState) (lenv : LoginEnv)
    (env : CommentViewEnv) (url : String) (c : Option String) (rand : Nat) :
    countNav (comment_post_in_current_view st lenv env url c rand).2.1 = 0 := by
  unfold comment_post_in_current_view
  exact guardLogin_countNav _ _ _ (fun s => commentViewBody_countNav s env url _)

theorem interactNavPhase_connected (st : BotState) (env : InteractEnv) (url : String) :
    ((interactNavPhase st env url).2).connected = st.connected := by
  unfold interactNavPhase
  split <;> rfl

theorem interactNavPhase_countNav (st : BotState) (env : InteractEnv) (url : String) :
    countNav (interactNavPhase st env url).1 =
      1 + (if driftDetected env url then 1 else 0) := by
  unfold interactNavPhase
  split <;> simp_all [countNav_cons, countNav_nil, Event.isNav]

theorem likePostBody_exhaust (st : BotState) (p : LikePageEnv) (url : String)
    (h1 : ∀ x, p.cand x ≠ CandOutcome.found)
    (h2 : ∀ b ∈ p.altButtons, altMatch b = false) :
    (likePostBody st p url).1 = false := by
  have hnone : ∀ paths, (candLoop p.cand true (fun x => [Event.click x]) paths).1 = none :=
    fun paths => candLoop_none _ _ _ _ h1
  have halt : p.altButtons.find? altMatch = none :=
    List.find?_eq_none.mpr (fun b hb => by simp [h2 b hb])
  simp only [likePostBody]
  split
  · rfl
  · split
    next val heq => rw [hnone] at heq; exact Option.noConfusion heq
    next heq =>
      split
      · rfl
      · split
        next b heqb => rw [halt] at heqb; exact Option.noConfusion heqb
        next => rfl

theorem like_post_exhaust (st : BotState) (lenv : LoginEnv) (p : LikePageEnv) (url : String)
    (h1 : ∀ x, p.cand x ≠ CandOutcome.found)
    (h2 : ∀ b ∈ p.altButtons, altMatch b = false) :
    (like_post st lenv p url).1 = false := by
  unfold like_post
  simp only [guardLogin]
  split
  · exact likePostBody_exhaust _ _ _ h1 h2
  · split
    · exact likePostBody_exhaust _ _ _ h1 h2
    · rfl

theorem commentPostBody_exhaust (st : BotState) (env : CommentEnv) (url comment : String)
    (h1 : ∀ x, env.areaCand x ≠ CandOutcome.found)
    (h2 : ∀ g ∈ env.genericElems, g.raises = true) :
    (commentPostBody st env url comment).1 = false := by
  have hnone : ∀ onHit sels, (candLoop env.areaCand true onHit sels).1 = none :=
    fun onHit sels => candLoop_none _ _ _ _ h1
  have hgen : env.genericElems.find? (fun e => !e.raises) = none :=
    List.find?_eq_none.mpr (fun g hg => by simp [h2 g hg])
  simp only [commentPostBody]
  split
  · rfl
  · split
    next val heq => rw [hnone] at heq; exact Option.noConfusion heq
    next heq =>
      split
      next g heqg => rw [hgen] at heqg; exact Option.noConfusion heqg
      next => rfl

theorem comment_post_exhaust (st : BotState) (lenv : LoginEnv) (env : CommentEnv)
    (url : String) (c : Option String) (rand : Nat)
    (h1 : ∀ x, env.areaCand x ≠ CandOutcome.found)
    (h2 : ∀ g ∈ env.genericElems, g.raises = true) :
    (comment_post st lenv env url c rand).1 = false := by
  unfold comment_post
  simp only [guardLogin]
  split
  · exact commentPostBody_exhaust _ _ _ _ h1 h2
  · split
    · exact commentPostBody_exhaust _ _ _ _ h1 h2
    · rfl

theorem likePostBody_countWaits (st : BotState) (p : LikePageEnv) (url : String)
    (h : p.openRaises = false) :
    countWaits (likePostBody st p url).2.1 =
      countWaits (candLoop p.cand true (fun x => [Event.click x])
        (likePathsFor p.urlAfterOpen)).2 := by
  simp only [likePostBody]
  split
  next hc => exact absurd hc (by simp [h])
  next =>
    split
    next val heq =>
      simp [countWaits_cons, countWaits_append, countWaits_nil, Event.isWait]
    next heq =>
      split
      · simp [countWaits_cons, Event.isWait]
      · split
        next b heqb =>
          simp [countWaits_cons, countWaits_append, countWaits_nil, Event.isWait]
        next => simp [countWaits_cons, Event.isWait]

theorem commentPostBody_onFb (st : BotState) (env : CommentEnv) (url comment : String)
    (h : strContains st.currentUrl "facebook.com" = true) :
    countNav (commentPostBody st env url comment).2.1 = 0
    ∧ (commentPostBody st env url comment).2.2 = st := by
  have hbtn1 := candLoop_countNav env.mobileBtn false (fun x => [Event.click x])
    (fun _ => by simp [countNav_cons, countNav_nil, Event.isNav]) mobileCommentButtons
  have hbtn2 := candLoop_countNav env.desktopBtn false (fun x => [Event.click x])
    (fun _ => by simp [countNav_cons, countNav_nil, Event.isNav]) desktopCommentButtons
  have harea : ∀ sels, countNav (candLoop env.areaCand true
      (fun x => if strContains st.currentUrl "m.facebook.com" then
                  typeHitEvents comment env.submitBtn x
                else [Event.click x, Event.typeText comment, Event.typeText "ENTER"]) sels).2 = 0 := by
    intro sels
    refine candLoop_countNav _ _ _ (fun x => ?_) sels
    by_cases hm : strContains st.currentUrl "m.facebook.com" <;>
      simp [hm, typeHitEvents_countNav, countNav_cons, countNav_nil, Event.isNav]
  have hbtn : countNav (if strContains st.currentUrl "m.facebook.com" = true then
        (candLoop env.mobileBtn false (fun x => [Event.click x]) mobileCommentButtons).2
      else (candLoop env.desktopBtn false (fun x => [Event.click x]) desktopCommentButtons).2)
      = 0 := by
    split
    · exact hbtn1
    · exact hbtn2
  simp only [commentPostBody, h]
  constructor
  · split
    · simp [countNav_cons, countNav_nil, Event.isNav]
    · split <;>
        [skip; split] <;>
          simp_all [countNav_append, countNav_cons, countNav_nil, Event.isNav]
  · split
    · rfl
    · split
      · rfl
      · split
        · rfl
        · rfl

theorem commentPostBody_offFb (st : BotState) (env : CommentEnv) (url comment : String)
    (h : strContains st.currentUrl "facebook.com" = false)
    (ho : env.outerRaises = false) :
    (commentPostBody st env url comment).2.1.head? = some (Event.navigate url)
    ∧ (commentPostBody st env url comment).2.2 = { st with currentUrl := env.urlAfterNav } := by
  simp only [commentPostBody, h, ho]
  constructor
  · split
    next hc => exact absurd hc (by simp)
    next =>
      split
      · rfl
      · split
        · rfl
        · rfl
  · split
    next hc => exact absurd hc (by simp)
    next =>
      split
      · rfl
      · split
        · rfl
        · rfl

theorem sharePostBody_onFb (st : BotState) (env : ShareEnv) (url : String)
    (h : strContains st.currentUrl "facebook.com" = true) :
    countNav (sharePostBody st env url).2.1 = 0
    ∧ (sharePostBody st env url).2.2 = st := by
  have hbtn := shareBtnLoop_countNav env.shareCand
  have hnow := candLoop_countNav env.shareNowCand true (fun x => [Event.click x])
    (fun _ => by simp [countNav_cons, countNav_nil, Event.isNav])
  simp only [sharePostBody, h]
  constructor
  · repeat' split
    all_goals simp_all [countNav_append, countNav_cons, countNav_nil, Event.isNav]
  · repeat' split
    all_goals first
      | rfl
      | simp_all

theorem sharePostBody_offFb (st : BotState) (env : ShareEnv) (url : String)
    (h : strContains st.currentUrl "facebook.com" = false)
    (ho : env.outerRaises = false) :
    (sharePostBody st env url).2.1.head? = some (Event.navigate url)
    ∧ (sharePostBody st env url).2.2 = { st with currentUrl := env.urlAfterNav } := by
  simp only [sharePostBody, h, ho]
  constructor
  · repeat' split
    all_goals first
      | rfl
      | simp_all
  · repeat' split
    all_goals first
      | rfl
      | simp_all

/-- Claim C2: for every non-empty ordered list of locator candidates for an
(intent, variant) pair, element resolution evaluates candidates strictly in
list order and acts on the first candidate that yields a passing element,
never a later one, even when several candidates would match.  `candLoop` is
the resolution loop shared by `like_post`, `like_post_in_current_view`,
`comment_post`, `comment_post_in_current_view` and the share-now loop of
`share_post`: its result is the first candidate whose outcome is `found`
(the `find?` characterisation), and in particular when candidate `i` passes
and all earlier candidates do not, candidate `i` is the one acted on. -/
theorem claim_C2_priority_order :
    (∀ (out : String → CandOutcome) (useWait : Bool) (onHit : String → List Event)
       (l : List String),
       (candLoop out useWait onHit l).1 = l.find? (fun x => out x == CandOutcome.found))
    ∧ (∀ (out : String → CandOutcome) (useWait : Bool) (onHit : String → List Event)
         (l : List String) (i : Nat) (hi : i < l.length),
         out (l.get ⟨i, hi⟩) = CandOutcome.found →
         (∀ j (hj : j < i), out (l.get ⟨j, Nat.lt_trans hj hi⟩) ≠ CandOutcome.found) →
         (candLoop out useWait onHit l).1 = some (l.get ⟨i, hi⟩))
    ∧ (∀ (p : LikeViewEnv),
         (candLoop (fun x => scanOutcome (p.cand x)) false (fun x => [Event.click x])
             likePathsDesktop).1
           = likePathsDesktop.find? (fun x => scanOutcome (p.cand x) == CandOutcome.found)) := by
  refine ⟨fun out w oh l => candLoop_fst out w oh l, ?_,
    fun p => candLoop_fst _ false _ likePathsDesktop⟩
  intro out w oh l i hi hp hj
  rw [candLoop_fst]
  refine find_first_of_none_before _ l i hi (by simpa using hp) (fun j hj2 => ?_)
  have := hj j hj2
  cases hx : out (l.get ⟨j, Nat.lt_trans hj2 hi⟩) <;> simp_all

/-- Witness for claim C2 at a concrete candidate list in which both the
second and the fourth candidate match: resolution acts on the second. -/
theorem claim_C2_priority_order_witness :
    candTwoMatches (["a", "b", "c", "d"].get ⟨1, by decide⟩) = CandOutcome.found
    ∧ (candLoop candTwoMatches false (fun x => [Event.click x]) ["a", "b", "c", "d"]).1
        = some "b" := by
  refine ⟨by decide, ?_⟩
  have h := claim_C2_priority_order.2.1 candTwoMatches false (fun x => [Event.click x])
    ["a", "b", "c", "d"] 1 (by decide) (by decide)
    (fun j hj => by
      have hj0 : j = 0 := by omega
      subst hj0
      show candTwoMatches "a" ≠ CandOutcome.found
      decide)
  exact h

/-- Claim C3: a locator candidate whose query raises is treated exactly like
a non-matching candidate and resolution continues with the next one
(`candLoop` is unchanged when `thrown` outcomes are renamed to `notFound`),
no low-level query exception reaches the caller (every translated method is
a total function into a boolean result), and exhausting all candidates —
including the fallback scans — yields False rather than an exception, shown
for `like_post` and `comment_post`. -/
theorem claim_C3_fault_isolation :
    (∀ (out : String → CandOutcome) (useWait : Bool) (onHit : String → List Event)
       (l : List String),
       candLoop (demoteThrown out) useWait onHit l = candLoop out useWait onHit l)
    ∧ (∀ (st : BotState) (lenv : LoginEnv) (p : LikePageEnv) (url : String),
         (∀ x, p.cand x ≠ CandOutcome.found) →
         (∀ b ∈ p.altButtons, altMatch b = false) →
         (like_post st lenv p url).1 = false)
    ∧ (∀ (st : BotState) (lenv : LoginEnv) (env : CommentEnv) (url : String)
         (c : Option String) (rand : Nat),
         (∀ x, env.areaCand x ≠ CandOutcome.found) →
         (∀ g ∈ env.genericElems, g.raises = true) →
         (comment_post st lenv env url c rand).1 = false) :=
  ⟨fun out w oh l => candLoop_demote out w oh l,
   fun st lenv p url h1 h2 => like_post_exhaust st lenv p url h1 h2,
   fun st lenv env url c rand h1 h2 => comment_post_exhaust st lenv env url c rand h1 h2⟩

/-- Witness for claim C3 at a concrete environment in which every candidate
query raises: `like_post` and `comment_post` both return False. -/
theorem claim_C3_fault_isolation_witness :
    (∀ x, pAllThrown.cand x ≠ CandOutcome.found)
    ∧ (like_post stConnected lenvAny pAllThrown urlWithId).1 = false
    ∧ (comment_post stConnected lenvAny cenvAllThrown urlWithId none 0).1 = false := by
  refine ⟨?_, ?_, ?_⟩
  · intro x h
    exact nomatch h
  · exact claim_C3_fault_isolation.2.1 stConnected lenvAny pAllThrown urlWithId
      (fun _ h => nomatch h)
      (fun b hb => absurd hb (List.not_mem_nil b))
  · exact claim_C3_fault_isolation.2.2 stConnected lenvAny cenvAllThrown urlWithId none 0
      (fun _ h => nomatch h)
      (fun g hg => by
        have hg2 := List.mem_singleton.mp hg
        subst hg2
        rfl)

/-- Claim C5, amended: the bounded `wait.until` is applied to every
candidate attempted, not only the first — one wait per candidate until a
candidate succeeds — so resolving a list of N candidates performs
`min (first-hit-index + 1) N` bounded waits and worst-case resolution
latency is N timeout windows, not one.  Shown for `candLoop` in general and
for the selector loop of `like_post` in particular. -/
theorem claim_C5_wait_every_candidate :
    (∀ (out : String → CandOutcome) (onHit : String → List Event) (l : List String),
       (∀ x, countWaits (onHit x) = 0) →
       countWaits (candLoop out true onHit l).2 =
         min ((l.takeWhile (fun x => !(out x == CandOutcome.found))).length + 1) l.length)
    ∧ (∀ (st : BotState) (lenv : LoginEnv) (p : LikePageEnv) (url : String),
        st.connected = true → p.openRaises = false →
        countWaits (like_post st lenv p url).2.1 =
          min (((likePathsFor p.urlAfterOpen).takeWhile
                  (fun x => !(p.cand x == CandOutcome.found))).length + 1)
              (likePathsFor p.urlAfterOpen).length) := by
  refine ⟨fun out onHit l h => candLoop_countWaits out onHit h l, ?_⟩
  intro st lenv p url hc ho
  unfold like_post
  rw [guardLogin_connected _ _ _ hc, likePostBody_countWaits st p url ho]
  exact candLoop_countWaits p.cand _
    (fun x => by simp [countWaits_cons, countWaits_nil, Event.isWait]) _

/-- Witness for the amended claim C5 at a concrete desktop environment. -/
theorem claim_C5_wait_every_candidate_witness :
    stConnected.connected = true
    ∧ pNoMatch.openRaises = false
    ∧ countWaits (like_post stConnected lenvAny pNoMatch urlWithId).2.1 =
        min (((likePathsFor pNoMatch.urlAfterOpen).takeWhile
                (fun x => !(pNoMatch.cand x == CandOutcome.found))).length + 1)
            (likePathsFor pNoMatch.urlAfterOpen).length :=
  ⟨rfl, rfl, claim_C5_wait_every_candidate.2 stConnected lenvAny pNoMatch urlWithId rfl rfl⟩

/-- Counterexample to claim C5 as stated: the claim says the bounded wait is
applied only to the first candidate so that resolution latency is bounded by
one timeout window; on a desktop page where no like selector matches,
`like_post` performs seven bounded waits — one per candidate of its
seven-entry desktop list — not one. -/
theorem claim_C5_counterexample :
    countWaits (like_post stConnected lenvAny pNoMatch urlWithId).2.1 = 7
    ∧ ¬(countWaits (like_post stConnected lenvAny pNoMatch urlWithId).2.1 ≤ 1) := by
  constructor <;> decide

/-- Claim C1: every interaction method (`like_post`, `comment_post`,
`share_post`, `like_post_in_current_view`, `comment_post_in_current_view`,
`interact_with_post`) first runs the login flow when the session is not
authenticated; if login does not succeed the method returns False and its
trace contains no page interaction and no activity-log record — and the
login flow itself never emits an interaction event, so no interaction ever
precedes the authenticated state. -/
theorem claim_C1_auth_guard :
    (∀ (st : BotState) (env : InteractEnv) (pL : LikePageEnv) (cE : CommentEnv)
       (sE : ShareEnv) (pLV : LikeViewEnv) (cV : CommentViewEnv) (url : String)
       (c : Option String) (rand : Nat) (L C S : Bool),
       st.connected = false →
       (login st env.loginEnv).1 ≠ LoginOutcome.ok →
       ((like_post st env.loginEnv pL url).1 = false
          ∧ interactions (like_post st env.loginEnv pL url).2.1 = [])
       ∧ ((comment_post st env.loginEnv cE url c rand).1 = false
          ∧ interactions (comment_post st env.loginEnv cE url c rand).2.1 = [])
       ∧ ((share_post st env.loginEnv sE url).1 = false
          ∧ interactions (share_post st env.loginEnv sE url).2.1 = [])
       ∧ ((like_post_in_current_view st env.loginEnv pLV url).1 = false
          ∧ interactions (like_post_in_current_view st env.loginEnv pLV url).2.1 = [])
       ∧ ((comment_post_in_current_view st env.loginEnv cV url c rand).1 = false
          ∧ interactions (comment_post_in_current_view st env.loginEnv cV url c rand).2.1 = [])
       ∧ ((interact_with_post st env url L C S).1 = false
          ∧ interactions (interact_with_post st env url L C S).2.1 = []))
    ∧ (∀ (st2 : BotState) (lenv : LoginEnv), interactions (login st2 lenv).2.1 = []) := by
  refine ⟨?_, fun st2 lenv => login_interactions_nil st2 lenv⟩
  intro st env pL cE sE pLV cV url c rand L C S h1 h2
  have hg : ∀ body, guardLogin st env.loginEnv body =
      (false, (login st env.loginEnv).2.1, (login st env.loginEnv).2.2) :=
    fun body => guardLogin_loginFail st env.loginEnv body h1 h2
  refine ⟨⟨?_, ?_⟩, ⟨?_, ?_⟩, ⟨?_, ?_⟩, ⟨?_, ?_⟩, ⟨?_, ?_⟩, ⟨?_, ?_⟩⟩ <;>
    simp [like_post, comment_post, share_post, like_post_in_current_view,
      comment_post_in_current_view, interact_with_post, hg, login_interactions_nil]

/-- Witness for claim C1: a fresh unauthenticated bot whose browser setup
fails; `interact_with_post` returns False with no interaction recorded. -/
theorem claim_C1_auth_guard_witness :
    freshBot.connected = false
    ∧ (login freshBot ienvLoginFail.loginEnv).1 ≠ LoginOutcome.ok
    ∧ (interact_with_post freshBot ienvLoginFail urlWithId true true false).1 = false
    ∧ interactions (interact_with_post freshBot ienvLoginFail urlWithId true true false).2.1
        = [] := by
  have h := claim_C1_auth_guard.1 freshBot ienvLoginFail pNoMatch cenvTrivial shareTrivial
    likeViewTrivial commentViewTrivial urlWithId none 0 true true false rfl (by decide)
  exact ⟨rfl, by decide, h.2.2.2.2.2.1, h.2.2.2.2.2.2⟩

/-- Claim C4: the aggregate result of `interact_with_post` is the
conjunction of the requested actions' results — True iff every requested
action succeeded — and its trace is the navigation phase followed by the
traces of the requested actions in the fixed order like, comment, share, so
a failed action never prevents the following requested actions from being
attempted. -/
theorem claim_C4_aggregate_conjunction :
    ∀ (st : BotState) (env : InteractEnv) (url : String) (L C S : Bool),
      st.connected = true →
      ((interact_with_post st env url L C S).1 =
        ((!L || (like_post_in_current_view (interactNavPhase st env url).2 env.loginEnv
                   env.likeView url).1)
         && (!C || (comment_post_in_current_view (interactNavPhase st env url).2 env.loginEnv
                      env.commentView url none env.rand).1)
         && (!S || (share_post (interactNavPhase st env url).2 env.loginEnv env.share url).1)))
      ∧ ((interact_with_post st env url L C S).2.1 =
          (interactNavPhase st env url).1
          ++ (if L then (like_post_in_current_view (interactNavPhase st env url).2 env.loginEnv
                           env.likeView url).2.1 else [])
          ++ (if C then (comment_post_in_current_view (interactNavPhase st env url).2
                           env.loginEnv env.commentView url none env.rand).2.1 else [])
          ++ (if S then (share_post (interactNavPhase st env url).2 env.loginEnv
                           env.share url).2.1 else [])) := by
  intro st env url L C S h
  have hnav : ((interactNavPhase st env url).2).connected = true := by
    rw [interactNavPhase_connected]
    exact h
  have hL := like_post_in_current_view_state (interactNavPhase st env url).2 env.loginEnv
    env.likeView url hnav
  have hC := comment_post_in_current_view_state (interactNavPhase st env url).2 env.loginEnv
    env.commentView url none env.rand hnav
  unfold interact_with_post
  rw [guardLogin_connected _ _ _ h]
  simp only [interactBody]
  cases L <;> cases C <;> cases S <;> simp [hL, hC]

/-- Witness for claim C4 at a concrete authenticated state with like and
comment requested and share not requested. -/
theorem claim_C4_aggregate_conjunction_witness :
    stConnected.connected = true
    ∧ (interact_with_post stConnected ienvTrivial urlWithId true true false).1 =
        ((!true || (like_post_in_current_view (interactNavPhase stConnected ienvTrivial
                      urlWithId).2 ienvTrivial.loginEnv ienvTrivial.likeView urlWithId).1)
         && (!true || (comment_post_in_current_view (interactNavPhase stConnected ienvTrivial
                         urlWithId).2 ienvTrivial.loginEnv ienvTrivial.commentView urlWithId
                         none ienvTrivial.rand).1)
         && (!false || (share_post (interactNavPhase stConnected ienvTrivial urlWithId).2
                          ienvTrivial.loginEnv ienvTrivial.share urlWithId).1)) :=
  ⟨rfl, (claim_C4_aggregate_conjunction stConnected ienvTrivial urlWithId true true false rfl).1⟩

/-- Claim C6: in every authenticated run of `interact_with_post` the
navigation/scoping phase performs exactly one navigation when no drift is
detected and exactly two (the initial one plus a single re-navigation to
the original URL) when the extracted post identifier is missing from the
realized URL — never a second retry, whatever the retry's realized URL is —
and for runs without the share action (the configuration used by every
caller in the repository) the whole trace contains exactly those
navigations. -/
theorem claim_C6_single_renavigation :
    ∀ (st : BotState) (env : InteractEnv) (url : String) (L C : Bool),
      st.connected = true →
      (countNav (interactNavPhase st env url).1 =
        1 + (if driftDetected env url then 1 else 0))
      ∧ (driftDetected env url = false → countNav (interactNavPhase st env url).1 = 1)
      ∧ (countNav (interact_with_post st env url L C false).2.1 =
          1 + (if driftDetected env url then 1 else 0)) := by
  intro st env url L C h
  refine ⟨interactNavPhase_countNav st env url, ?_, ?_⟩
  · intro hd
    rw [interactNavPhase_countNav, hd]
    simp
  · unfold interact_with_post
    rw [guardLogin_connected _ _ _ h]
    simp only [interactBody]
    cases L <;> cases C <;>
      simp [countNav_append, countNav_nil, interactNavPhase_countNav,
        like_post_in_current_view_countNav, comment_post_in_current_view_countNav]

/-- Witness for claim C6 at a concrete drifting environment (the realized
URL after the first navigation has lost the "pfbid" identifier). -/
theorem claim_C6_single_renavigation_witness :
    stConnected.connected = true
    ∧ driftDetected ienvDrift urlWithId = true
    ∧ countNav (interact_with_post stConnected ienvDrift urlWithId true true false).2.1 =
        1 + (if driftDetected ienvDrift urlWithId then 1 else 0) :=
  ⟨rfl, by decide,
   (claim_C6_single_renavigation stConnected ienvDrift urlWithId true true rfl).2.2⟩

/-- Claim C10: `comment_post` and `share_post` navigate to the given post
URL only when the browser's current URL does not contain "facebook.com";
when the browser is already on any facebook.com page no navigation happens
and the action runs against the currently loaded page (the state's URL is
unchanged); otherwise the trace begins with the navigation to the post URL
and the realized page becomes the current one. -/
theorem claim_C10_conditional_navigation :
    ∀ (st : BotState) (lenv : LoginEnv) (cE : CommentEnv) (sE : ShareEnv) (url : String)
      (c : Option String) (rand : Nat),
      st.connected = true →
      (strContains st.currentUrl "facebook.com" = true →
        countNav (comment_post st lenv cE url c rand).2.1 = 0
        ∧ (comment_post st lenv cE url c rand).2.2 = st
        ∧ countNav (share_post st lenv sE url).2.1 = 0
        ∧ (share_post st lenv sE url).2.2 = st)
      ∧ (strContains st.currentUrl "facebook.com" = false →
          (cE.outerRaises = false →
            (comment_post st lenv cE url c rand).2.1.head? = some (Event.navigate url)
            ∧ (comment_post st lenv cE url c rand).2.2.currentUrl = cE.urlAfterNav)
          ∧ (sE.outerRaises = false →
              (share_post st lenv sE url).2.1.head? = some (Event.navigate url)
              ∧ (share_post st lenv sE url).2.2.currentUrl = sE.urlAfterNav)) := by
  intro st lenv cE sE url c rand h
  have hcp : comment_post st lenv cE url c rand =
      commentPostBody st cE url (resolveComment st c rand) := by
    unfold comment_post
    rw [guardLogin_connected _ _ _ h]
  have hsp : share_post st lenv sE url = sharePostBody st sE url := by
    unfold share_post
    rw [guardLogin_connected _ _ _ h]
  constructor
  · intro hfb
    have c1 := commentPostBody_onFb st cE url (resolveComment st c rand) hfb
    have s1 := sharePostBody_onFb st sE url hfb
    rw [hcp, hsp]
    exact ⟨c1.1, c1.2, s1.1, s1.2⟩
  · intro hfb
    constructor
    · intro ho
      have c1 := commentPostBody_offFb st cE url (resolveComment st c rand) hfb ho
      rw [hcp]
      exact ⟨c1.1, by rw [c1.2]⟩
    · intro ho
      have s1 := sharePostBody_offFb st sE url hfb ho
      rw [hsp]
      exact ⟨s1.1, by rw [s1.2]⟩

/-- Witness for claim C10: on a facebook.com page the comment and share
actions navigate nowhere and leave the page unchanged; from a non-facebook
page the share action's first event is the navigation to the post URL. -/
theorem claim_C10_conditional_navigation_witness :
    stConnected.connected = true
    ∧ strContains stConnected.currentUrl "facebook.com" = true
    ∧ (countNav (comment_post stConnected lenvAny cenvTrivial urlWithId none 0).2.1 = 0
       ∧ (comment_post stConnected lenvAny cenvTrivial urlWithId none 0).2.2 = stConnected
       ∧ countNav (share_post stConnected lenvAny shareTrivial urlWithId).2.1 = 0
       ∧ (share_post stConnected lenvAny shareTrivial urlWithId).2.2 = stConnected)
    ∧ strContains stElsewhere.currentUrl "facebook.com" = false
    ∧ (share_post stElsewhere lenvAny shareTrivial urlWithId).2.1.head? =
        some (Event.navigate urlWithId) := by
  refine ⟨rfl, by decide, ?_, by decide, ?_⟩
  · exact (claim_C10_conditional_navigation stConnected lenvAny cenvTrivial shareTrivial
      urlWithId none 0 rfl).1 (by decide)
  · exact (((claim_C10_conditional_navigation stElsewhere lenvAny cenvTrivial shareTrivial
      urlWithId none 0 rfl).2 (by decide)).2 rfl).1

/-- Claim C7: when the configuration's first account is missing its password
or username (or there are no accounts at all), both entry points
(`facebook_cli.run_bot` and run_facebook_bot.py's `main`) abort with a
False result and an empty trace — no browser navigation, no activity-log
record, and no default credentials substituted (the bot is never started). -/
theorem claim_C7_config_abort :
    ∀ (url : String) (argv1 : Option String) (env : FBCli.CliEnv) (cfg : FBCli.Config),
      env.config = some cfg →
      FBCli.credsMissing cfg = true →
      FBCli.run_bot url env = (false, []) ∧ FBRun.main argv1 env = (false, []) := by
  intro url argv1 env cfg hc hm
  unfold FBCli.credsMissing at hm
  constructor
  · unfold FBCli.run_bot
    split
    · rfl
    · simp only [hc]
      cases ha : cfg.accounts with
      | none => rfl
      | some l =>
        cases l with
        | nil => rfl
        | cons a t =>
          rw [ha] at hm
          simp only at hm
          simp [hm]
  · cases argv1 with
    | none => rfl
    | some u =>
      unfold FBRun.main
      simp only [hc]
      cases ha : cfg.accounts with
      | none => rfl
      | some l =>
        cases l with
        | nil => rfl
        | cons a t =>
          rw [ha] at hm
          simp only at hm
          simp [hm]

/-- Witness for claim C7 at a concrete configuration whose first account has
a username but no password. -/
theorem claim_C7_config_abort_witness :
    FBCli.cliEnvMissingPassword.config = some FBCli.cfgMissingPassword
    ∧ FBCli.credsMissing FBCli.cfgMissingPassword = true
    ∧ FBCli.run_bot urlWithId FBCli.cliEnvMissingPassword = (false, [])
    ∧ FBRun.main (some urlWithId) FBCli.cliEnvMissingPassword = (false, []) := by
  have h := claim_C7_config_abort urlWithId (some urlWithId) FBCli.cliEnvMissingPassword
    FBCli.cfgMissingPassword rfl (by decide)
  exact ⟨rfl, by decide, h.1, h.2⟩

/-- Claim C8, amended: when the page resulting from a login attempt contains
the step-up verification (two-factor `approvals_code`) field and does not
also contain the login-error message region — which the code checks first —
the login attempt is classified `failedVerificationRequired`, login returns
False without attempting to satisfy the challenge, `run_facebook_bot`
aborts with False, and its trace holds zero interactions and zero
activity-log records. -/
theorem claim_C8_verification_required :
    ∀ (st : BotState) (env : InteractEnv) (u p url : String) (L C S : Bool),
      env.loginEnv.setupOk = true →
      env.loginEnv.credEntryOk = true →
      env.loginEnv.errorBoxPresent = false →
      env.loginEnv.approvalsCodePresent = true →
      (login st env.loginEnv).1 = LoginOutcome.failedVerificationRequired
      ∧ (run_facebook_bot u p url L C S env).1 = false
      ∧ interactions (run_facebook_bot u p url L C S env).2 = [] := by
  intro st env u p url L C S h1 h2 h3 h4
  have hlog : ∀ s : BotState,
      (login s env.loginEnv).1 = LoginOutcome.failedVerificationRequired := by
    intro s
    unfold login
    simp [h1, h2, h3, h4]
  refine ⟨hlog st, ?_, ?_⟩
  · unfold run_facebook_bot
    simp [hlog]
  · unfold run_facebook_bot
    simp [hlog, login_interactions_nil]

/-- Witness for the amended claim C8 at a concrete two-factor login page. -/
theorem claim_C8_verification_required_witness :
    lenvVerif.approvalsCodePresent = true
    ∧ lenvVerif.errorBoxPresent = false
    ∧ (login freshBot { ienvTrivial with loginEnv := lenvVerif }.loginEnv).1 =
        LoginOutcome.failedVerificationRequired
    ∧ (run_facebook_bot "u" "p" urlWithId true true false
        { ienvTrivial with loginEnv := lenvVerif }).1 = false
    ∧ interactions (run_facebook_bot "u" "p" urlWithId true true false
        { ienvTrivial with loginEnv := lenvVerif }).2 = [] := by
  have h := claim_C8_verification_required freshBot { ienvTrivial with loginEnv := lenvVerif }
    "u" "p" urlWithId true true false rfl rfl rfl rfl
  exact ⟨rfl, rfl, h.1, h.2.1, h.2.2⟩

/-- Counterexample to claim C8 as stated: on a page that shows the
two-factor `approvals_code` field but also the `login_error_box` region,
the code classifies the failure by the error box — checked first — so the
failure reason is bad credentials, not verification-required, even though
the step-up field is present. -/
theorem claim_C8_counterexample :
    lenvBoth.approvalsCodePresent = true
    ∧ (login freshBot lenvBoth).1 = LoginOutcome.failedBadCredentials
    ∧ (login freshBot lenvBoth).1 ≠ LoginOutcome.failedVerificationRequired := by
  refine ⟨rfl, by decide, by decide⟩

/-- Claim C9 (code bug): the exit-status contract — exit 0 iff the aggregate
outcome is full success — is honoured by facebook_cli.py but violated by
run_facebook_bot.py, whose `__main__` block discards `main()`'s boolean:
at a concrete failing input (valid config, browser setup fails, so the
single target fails) the script's `main` returns False yet the process
exits 0, while the CLI entry point exits 1 on the very same input. -/
theorem claim_C9_exit_status_divergence :
    (FBRun.main (some "https://www.facebook.com/share/p/123") FBCli.cliEnvLoginFails).1 = false
    ∧ FBRun.scriptExitCode (some "https://www.facebook.com/share/p/123")
        FBCli.cliEnvLoginFails = 0
    ∧ FBCli.main (FBCli.CliCmd.interactCmd "https://www.facebook.com/share/p/123")
        (fun _ => FBCli.cliEnvLoginFails) = 1 := by
  refine ⟨by decide, rfl, by decide⟩

end FBBot
